import Mathlib

/-!
Verification of the fluentbase RW trace builder and account model.

The definitions below are a shallow embedding of the Rust sources:
  - src/crates/runtime/src/instruction/sys_exec_hash.rs (SysExecHash::fn_impl)
  - src/crates/sdk/src/account.rs (Account and its balance/nonce/field operations)
  - src/circuits/src/rw_builder.rs (RwBuilder::build, build_platform_rw_ops,
    build_return_rw_ops)
Machine integers are embedded as Nat with explicit reduction modulo 2^32,
2^64 or 2^256 exactly where the Rust code wraps or is bounded by the type.
Fallible Rust code returns Except/Option.  Code of the repository that is
referenced but whose file is not part of the provided sources (the ExitCode
and SysFuncIdx enumerations, the ExecStep plumbing and the per-instruction
row generators living in rw_builder/{opcode,platform,wasi,rwasm}.rs) is
modelled from the specification; each such definition carries a doc comment
starting with: Modelled from the spec.
-/

/-- Modelled from the spec: the ExitCode enumeration of fluentbase_types
(src/types/src/types.rs is not among the provided sources).  Section 7 of the
spec names the error kinds `UnknownSysCall`, `OutputOverflow`, `TransactError`,
`NonceOverflow`, `InsufficientBalance`, `CreateCollision`, `OverflowPayment`;
`Ok` is the success code and `Panic` stands for the remaining guest failure
codes.  The concrete numeric values are not fixed by the spec; the model
assigns distinct integers with `Ok = 0` (success), which is all the code under
verification relies on. -/
inductive ExitCode where
  | Ok
  | Panic
  | TransactError
  | OutputOverflow
  | NonceOverflow
  | InsufficientBalance
  | CreateCollision
  | OverflowPayment
  deriving DecidableEq, Repr

/-- Modelled from the spec: the `into_i32` conversion of ExitCode; success is
0 and every failure kind has its own distinct negative code. -/
def ExitCode.into_i32 : ExitCode → Int
  | .Ok => 0
  | .Panic => -71
  | .TransactError => -75
  | .OutputOverflow => -76
  | .NonceOverflow => -77
  | .InsufficientBalance => -78
  | .CreateCollision => -79
  | .OverflowPayment => -80

/-- Modelled from the spec: the `From<i32>` conversion for ExitCode, the
left inverse of `into_i32` on the declared codes; codes outside the
enumeration are folded into the generic guest failure `Panic`. -/
def ExitCode.fromInt : Int → ExitCode
  | 0 => .Ok
  | -71 => .Panic
  | -75 => .TransactError
  | -76 => .OutputOverflow
  | -77 => .NonceOverflow
  | -78 => .InsufficientBalance
  | -79 => .CreateCollision
  | -80 => .OverflowPayment
  | _ => .Panic

/-- Fields of `RuntimeContext` read and written by `SysExecHash::fn_impl`
(src/crates/runtime/src/instruction/sys_exec_hash.rs): the accumulated
consumed fuel (a u32, embedded as Nat reduced mod 2^32) and the return data
(a byte vector, embedded as List Nat).  The jzkt preimage store is only used
to resolve the child bytecode, which in this embedding is absorbed into the
child-run parameter of `fn_impl`. -/
structure RuntimeContext where
  consumed_fuel : Nat
  return_data : List Nat
  deriving DecidableEq, Repr

/-- Payload of `ExecutionResult::data()` as used by `fn_impl`: the child's
output bytes and its reported exit code (an i32, embedded as Int). -/
structure ExecutionResultData where
  output : List Nat
  exit_code : Int
  deriving DecidableEq, Repr

/-- View of `ExecutionResult` used by `fn_impl`: optional fuel consumed
(`fuel_consumed()` returns Option, the code applies `unwrap_or_default`)
and the result data. -/
structure ExecutionResult where
  fuel_consumed : Option Nat
  data : ExecutionResultData
  deriving DecidableEq, Repr

namespace SysExecHash

/-- Shallow embedding of `SysExecHash::fn_impl`
(src/crates/runtime/src/instruction/sys_exec_hash.rs, lines 48-79).
`childRun` is the outcome of `Runtime::run_with_context` on the freshly built
child context (that runtime is external to the verified sources): `none` when
the run itself fails (the `map_err(|_| ExitCode::TransactError)?` branch),
`some r` when it completes with result `r`.  The returned pair is the final
parent context together with the `Result<(Vec<u8>, u32), ExitCode>` value;
`fuel_consumed as u32` is embedded as reduction mod 2^32 and the u32
subtraction `fuel_limit - fuel_consumed` as wrapping subtraction. -/
def fn_impl (ctx : RuntimeContext) (childRun : Option ExecutionResult)
    (return_len : Nat) (fuel_limit : Nat) :
    RuntimeContext × Except ExitCode (List Nat × Nat) :=
  match childRun with
  | none => (ctx, .error .TransactError)
  | some execution_result =>
    let fuel_consumed := (execution_result.fuel_consumed.getD 0) % 2 ^ 32
    let output := execution_result.data.output
    if return_len > 0 ∧ output.length > return_len then
      (ctx, .error .OutputOverflow)
    else if execution_result.data.exit_code ≠ ExitCode.Ok.into_i32 then
      (ctx, .error (ExitCode.fromInt execution_result.data.exit_code))
    else
      ({ consumed_fuel := (ctx.consumed_fuel + fuel_consumed) % 2 ^ 32,
         return_data := output },
       .ok (output, (fuel_limit % 2 ^ 32 + 2 ^ 32 - fuel_consumed) % 2 ^ 32))

end SysExecHash

/-- Concrete parent context used by the closed example theorems below. -/
def ctx0 : RuntimeContext := { consumed_fuel := 17, return_data := [9, 9] }

/-- Concrete child result: completes with the generic failure code `Panic`
and empty output. -/
def resPanic : ExecutionResult :=
  { fuel_consumed := some 5, data := { output := [], exit_code := (-71 : Int) } }

/-- Concrete child result: successful exit code with a 3-byte output. -/
def resOk3 : ExecutionResult :=
  { fuel_consumed := some 5, data := { output := [1, 2, 3], exit_code := 0 } }

/-- Concrete child result: completes reporting the OutputOverflow code as its
own exit code. -/
def resChildOO : ExecutionResult :=
  { fuel_consumed := some 5, data := { output := [7], exit_code := (-76 : Int) } }

/-!
Account model, embedding src/crates/sdk/src/account.rs.
Byte buffers (`Bytes32`, byte slices) are embedded as `List Nat`, one entry
per byte, little-endian where a numeric interpretation is taken.  `U256`
values are embedded as `Nat` with the 2^256 bound made explicit in the
checked operations, `u64` values as `Nat` with reduction mod 2^64 where the
Rust code can wrap.
-/

/-- Value of a little-endian byte list: the embedding of
`LittleEndian::read_u64` / the numeric value of a `U256` le slice. -/
def ofLEBytes (l : List Nat) : Nat :=
  l.foldr (fun b acc => b + 256 * acc) 0

/-- Little-endian byte list of fixed width `n` for value `v`: the embedding
of `LittleEndian::write_u64` output and of `U256::as_le_slice`. -/
def leBytes : Nat → Nat → List Nat
  | 0, _ => []
  | n + 1, v => v % 256 :: leBytes n (v / 256)

/-- Embedding of Rust `copy_from_slice` on byte slices: replaces the
destination with the source when the lengths agree (a mismatch panics in
Rust; the model then leaves the destination so the branch is visibly never
taken under the theorems' hypotheses). -/
def copy_from_slice (dst src : List Nat) : List Nat :=
  if src.length = dst.length then src else dst

/-- Embedding of `LittleEndian::read_u64`: little-endian value of the first
8 bytes of the buffer. -/
def read_u64 (l : List Nat) : Nat :=
  ofLEBytes (l.take 8)

/-- Embedding of `LittleEndian::write_u64` into a zeroed 32-byte field:
first 8 bytes are the little-endian u64, the remaining 24 stay zero. -/
def write_u64_field (v : Nat) : List Nat :=
  leBytes 8 v ++ List.replicate 24 0

/-- Modelled from the spec: the constant `KECCAK_EMPTY` of fluentbase_types
(src/types/src/consts.rs is not among the provided sources); an opaque
32-byte hash constant whose concrete bytes no verified claim depends on. -/
def KECCAK_EMPTY : List Nat := List.replicate 32 1

/-- Modelled from the spec: the constant `POSEIDON_EMPTY` of
fluentbase_types; an opaque 32-byte hash constant whose concrete bytes no
verified claim depends on. -/
def POSEIDON_EMPTY : List Nat := List.replicate 32 2

/-- Embedding of the `Account` struct (src/crates/sdk/src/account.rs,
lines 57-66).  `Address` is embedded opaquely as Nat; `U256` balance as Nat
(bounded by 2^256 in the checked operations); `u64` nonce and code sizes as
Nat; `B256`/`F254` hashes as 32-byte lists. -/
structure Account where
  address : Nat
  balance : Nat
  nonce : Nat
  source_code_size : Nat
  source_code_hash : List Nat
  rwasm_code_size : Nat
  rwasm_code_hash : List Nat
  deriving DecidableEq, Repr

namespace Account

/-- Embedding of `Account::default` / `Account::new(address)`
(src/crates/sdk/src/account.rs, lines 103-123). -/
def new (address : Nat) : Account :=
  { address := address
    balance := 0
    nonce := 0
    source_code_size := 0
    source_code_hash := KECCAK_EMPTY
    rwasm_code_size := 0
    rwasm_code_hash := POSEIDON_EMPTY }

/-- Embedding of `Account::get_fields` (src/crates/sdk/src/account.rs,
lines 152-174): packs the six account fields into the 6-entry array of
32-byte words at indices balance = 0, nonce = 1, source code size = 2,
source code hash = 3, rwasm code size = 4, rwasm code hash = 5.  Each entry
starts zeroed (`Default`), numeric fields are written with
`LittleEndian::write_u64`, the balance le slice and the hashes with
`copy_from_slice`. -/
def get_fields (a : Account) : List (List Nat) :=
  [ copy_from_slice (List.replicate 32 0) (leBytes 32 a.balance),
    write_u64_field a.nonce,
    write_u64_field a.source_code_size,
    copy_from_slice (List.replicate 32 0) a.source_code_hash,
    write_u64_field a.rwasm_code_size,
    copy_from_slice (List.replicate 32 0) a.rwasm_code_hash ]

/-- Embedding of `Account::new_from_fields` (src/crates/sdk/src/account.rs,
lines 125-150): starts from `Account::new(address)`, asserts that exactly 6
fields are supplied (the assert is embedded as `Option`, `none` being the
panic), overwrites the balance le slice with field 0, reads nonce and the
two code sizes with `LittleEndian::read_u64` from fields 1, 2, 4 and copies
the two hashes from fields 3 and 5. -/
def new_from_fields (address : Nat) (fields : List (List Nat)) :
    Option Account :=
  if fields.length = 6 then
    let result := Account.new address
    some { result with
      balance := ofLEBytes
        (copy_from_slice (leBytes 32 result.balance) (fields.getD 0 []))
      nonce := read_u64 (fields.getD 1 [])
      source_code_size := read_u64 (fields.getD 2 [])
      source_code_hash := copy_from_slice result.source_code_hash (fields.getD 3 [])
      rwasm_code_size := read_u64 (fields.getD 4 [])
      rwasm_code_hash := copy_from_slice result.rwasm_code_hash (fields.getD 5 []) }
  else
    none

/-- Embedding of `Account::inc_nonce` (src/crates/sdk/src/account.rs,
lines 176-183).  The Rust code saves the previous nonce, performs the u64
increment `self.nonce += 1` (wrapping, embedded as + 1 mod 2^64) and only
afterwards tests the incremented nonce against `u64::MAX`, returning
`NonceOverflow` on equality and `Ok(prev_nonce)` otherwise; the mutated
account is returned alongside the result in both cases. -/
def inc_nonce (a : Account) : Account × Except ExitCode Nat :=
  let prev_nonce := a.nonce
  let a2 := { a with nonce := (a.nonce + 1) % 2 ^ 64 }
  if a2.nonce = 2 ^ 64 - 1 then
    (a2, .error .NonceOverflow)
  else
    (a2, .ok prev_nonce)

/-- Embedding of `Account::sub_balance` (src/crates/sdk/src/account.rs,
lines 294-300): U256 `checked_sub`, i.e. subtract when `amount ≤ balance`,
otherwise report `InsufficientBalance` leaving the account unchanged. -/
def sub_balance (a : Account) (amount : Nat) : Account × Except ExitCode Unit :=
  if amount ≤ a.balance then
    ({ a with balance := a.balance - amount }, .ok ())
  else
    (a, .error .InsufficientBalance)

/-- Embedding of `Account::add_balance` (src/crates/sdk/src/account.rs,
lines 306-312): U256 `checked_add`, i.e. add when the sum stays below
2^256, otherwise report `OverflowPayment` leaving the account unchanged. -/
def add_balance (a : Account) (amount : Nat) : Account × Except ExitCode Unit :=
  if a.balance + amount < 2 ^ 256 then
    ({ a with balance := a.balance + amount }, .ok ())
  else
    (a, .error .OverflowPayment)

/-- Embedding of `Account::transfer` (src/crates/sdk/src/account.rs,
lines 318-323): `from.sub_balance(amount)?` then `to.add_balance(amount)?`.
Both accounts are `&mut` in Rust, so mutations performed before an error
persist; the embedding returns the final pair of accounts together with the
`Result<(), ExitCode>` value. -/
def transfer (fromAcc toAcc : Account) (amount : Nat) :
    Account × Account × Except ExitCode Unit :=
  match sub_balance fromAcc amount with
  | (f, .error e) => (f, toAcc, .error e)
  | (f, .ok ()) =>
    match add_balance toAcc amount with
    | (t, .error e) => (f, t, .error e)
    | (t, .ok ()) => (f, t, .ok ())

end Account

/-!
RW trace builder, embedding src/circuits/src/rw_builder.rs.  The dispatcher
`RwBuilder::build`, `build_platform_rw_ops` and `build_return_rw_ops` are in
the provided sources; the row/step plumbing (exec_step.rs, rw_row.rs) and the
per-instruction generators (rw_builder/{opcode,platform,wasi,rwasm}.rs) are
repository files not included under src/ and are modelled from the spec.
-/

/-- Context-row tags, from the usage in src/circuits/src/rw_builder.rs and
spec section 3: ProgramCounter is active; MemorySize, StackPointer and
CallDepth are defined but intentionally disabled. -/
inductive RwTableContextTag where
  | ProgramCounter
  | MemorySize
  | StackPointer
  | CallDepth
  deriving DecidableEq, Repr

/-- Modelled from the spec: the row model of rw_row.rs (not among the
provided sources).  Spec section 3: one immutable fact carrying a global
sequence number, a read/write flag, the owning call-frame id, a kind (stack
slot, memory byte, table element, storage slot, context field, syscall
argument/result), an address appropriate to the kind, and a value; context
rows additionally carry the context tag.  The fuel generator of spec
section 4.4 records the fuel delta as a context-level fact for which the
context-tag enumeration has no member, so that fact is modelled as its own
row kind `Fuel`; no claim proved below depends on that encoding choice. -/
inductive RwRow where
  | Stack (rw_counter : Nat) (is_write : Bool) (call_id : Nat)
      (address : Nat) (value : Nat)
  | Memory (rw_counter : Nat) (is_write : Bool) (call_id : Nat)
      (memory_address : Nat) (value : Nat)
  | Table (rw_counter : Nat) (is_write : Bool) (call_id : Nat)
      (address : Nat) (value : Nat)
  | Storage (rw_counter : Nat) (is_write : Bool) (call_id : Nat)
      (address : Nat) (value : Nat)
  | Context (rw_counter : Nat) (is_write : Bool) (call_id : Nat)
      (tag : RwTableContextTag) (value : Nat)
  | SyscallFact (rw_counter : Nat) (call_id : Nat) (value : Nat)
  | Fuel (rw_counter : Nat) (call_id : Nat) (delta : Nat)
  deriving DecidableEq, Repr

/-- Modelled from the spec: the syscall id enumeration `SysFuncIdx` of
fluentbase_runtime (not among the provided sources).  The ten constructors
are the ids matched by `build_platform_rw_ops` in
src/circuits/src/rw_builder.rs; `other` stands for every remaining platform
function index (the enumeration's further members and invalid indices),
which that dispatcher treats uniformly through its catch-all arm. -/
inductive SysFuncIdx where
  | RWASM_TRANSACT
  | SYS_HALT
  | SYS_WRITE
  | SYS_READ
  | WASI_PROC_EXIT
  | WASI_FD_WRITE
  | WASI_ENVIRON_SIZES_GET
  | WASI_ENVIRON_GET
  | WASI_ARGS_SIZES_GET
  | WASI_ARGS_GET
  | other (id : Nat)
  deriving DecidableEq, Repr

/-- Modelled from the spec: the `From<u32>` resolution of a platform
function index to a `SysFuncIdx` used by the dispatcher's Call arm.  The
concrete numeric ids are not fixed by the spec; the model assigns the ten
known ids the numbers 1..10 and folds every other index into `other`. -/
def SysFuncIdx.fromNat : Nat → SysFuncIdx
  | 1 => .RWASM_TRANSACT
  | 2 => .SYS_HALT
  | 3 => .SYS_WRITE
  | 4 => .SYS_READ
  | 5 => .WASI_PROC_EXIT
  | 6 => .WASI_FD_WRITE
  | 7 => .WASI_ENVIRON_SIZES_GET
  | 8 => .WASI_ENVIRON_GET
  | 9 => .WASI_ARGS_SIZES_GET
  | 10 => .WASI_ARGS_GET
  | id => .other id

/-- Builder error kinds (`GadgetError`, exec_step.rs is not among the
provided sources), modelled from the spec, section 7: `UnknownSysCall`
carrying the offending id, table/memory bounds violations, fuel exhaustion,
and the transact-specific fatal error. -/
inductive GadgetError where
  | UnknownSysCall (sys_func : SysFuncIdx)
  | OutOfBoundsError
  | FuelExhausted
  | Transact
  deriving DecidableEq, Repr

/-- Modelled from the spec: one statically declared operand access of an
instruction's shape (spec section 4.3: an ordered list of stack pop/push and
local get/set accesses drives the generic generator). -/
inductive RwOp where
  | StackPop
  | StackPush
  | LocalGet (depth : Nat)
  | LocalSet (depth : Nat)
  deriving DecidableEq, Repr

/-- Modelled from the spec: the decoded instruction as seen by the
dispatcher of src/circuits/src/rw_builder.rs.  The constructors mirror the
dispatcher's match arms with their payloads; every remaining instruction is
represented by `Other` carrying its statically declared operand shape (the
value of `get_rw_ops`, spec section 4.3). -/
inductive Instruction where
  | Call (fn_idx : Nat)
  | Return (drop_keep : Nat)
  | ConsumeFuel (block_fuel : Nat)
  | MemoryCopy
  | MemoryFill
  | TableFill (table_idx : Nat)
  | TableCopy (dst_tid : Nat)
  | TableGrow (table_idx : Nat)
  | TableGet (table_idx : Nat)
  | Other (rw_ops : List RwOp)
  deriving DecidableEq, Repr

/-- Modelled from the spec: the execution step of exec_step.rs (not among
the provided sources), spec sections 3 and 4.2: the decoded instruction, the
owning call-frame id, the global counter allocator state (`rw_counter`, the
next unused sequence number), the program-counter delta, the append-only row
log, the pre-step memory and table state, the remaining fuel, and the
engine-resolved operands of the current instruction: for bulk operations the
destination offset, source offset or fill value, and length (spec section
4.4); for syscalls the caller-resolved argument region offset and length
(spec section 4.5); for the nested transact call the child run outcome (spec
section 4.6). -/
structure ExecStep where
  instr : Instruction
  call_id : Nat
  rw_counter : Nat
  pc_delta : Nat
  rw_rows : List RwRow
  memory : Nat → Nat
  table : Nat → Nat
  table_size : Nat
  table_max : Nat
  fuel_remaining : Nat
  arg_dst : Nat
  arg_src : Nat
  arg_len : Nat
  io_offset : Nat
  io_len : Nat
  child_ok : Bool

namespace ExecStep

/-- Embedding of `step.pc_diff()` as used by the dispatcher. -/
def pc_diff (step : ExecStep) : Nat := step.pc_delta

/-- Appends one row built from the next unused global counter, advancing the
allocator: the `step.rw_rows.push(... step.next_rw_counter() ...)` pattern of
the source, honouring spec section 4.2 (exactly one counter per row, in
append order). -/
def pushRow (step : ExecStep) (mk : Nat → RwRow) : ExecStep :=
  { step with
    rw_counter := step.rw_counter + 1
    rw_rows := step.rw_rows ++ [mk step.rw_counter] }

/-- Appends `n` rows, row `i` built from unit index `i` and the `i`-th next
counter value, advancing the allocator by `n`: the per-unit emission loop of
the bulk generators (spec sections 4.2 and 4.4). -/
def pushRows (step : ExecStep) (n : Nat) (mk : Nat → Nat → RwRow) : ExecStep :=
  { step with
    rw_counter := step.rw_counter + n
    rw_rows := step.rw_rows ++ (List.range n).map (fun i => mk i (step.rw_counter + i)) }

end ExecStep

/-- Modelled from the spec: `build_consume_fuel_rw_ops`
(rw_builder/opcode.rs, not among the provided sources).  Spec section 4.4:
records the fuel delta as a context-level fact and fails fatally when the
step's remaining fuel would go negative. -/
def build_consume_fuel_rw_ops (step : ExecStep) : Except GadgetError ExecStep :=
  let delta := match step.instr with
    | .ConsumeFuel block_fuel => block_fuel
    | _ => 0
  if step.fuel_remaining < delta then
    .error .FuelExhausted
  else
    .ok (step.pushRow (fun c => .Fuel c step.call_id delta))

/-- Modelled from the spec: `build_memory_copy_rw_ops`
(rw_builder/opcode.rs, not among the provided sources).  Spec section 4.4:
given `(dst_offset, src_offset, length)` it emits `length` rows, each
addressing `dst_offset + i` for `i` in `[0, length)` in ascending order,
with the copied byte values taken from the pre-step memory snapshot so that
overlapping regions behave as if the source were read before any
destination write. -/
def build_memory_copy_rw_ops (step : ExecStep) : Except GadgetError ExecStep :=
  .ok (step.pushRows step.arg_len (fun i c =>
    .Memory c true step.call_id (step.arg_dst + i) (step.memory (step.arg_src + i))))

/-- Modelled from the spec: `build_memory_fill_rw_ops`
(rw_builder/opcode.rs, not among the provided sources).  Spec section 4.4:
one row per filled byte, addresses ascending from the destination offset,
each carrying the fill value. -/
def build_memory_fill_rw_ops (step : ExecStep) : Except GadgetError ExecStep :=
  .ok (step.pushRows step.arg_len (fun i c =>
    .Memory c true step.call_id (step.arg_dst + i) step.arg_src))

/-- Modelled from the spec: `build_table_fill_rw_ops`
(rw_builder/opcode.rs, not among the provided sources).  Spec section 4.4:
bounds-checks the affected element range against the table's declared
current size; out of range fails with a bounds error and emits zero data
rows, otherwise one write row per element in ascending order. -/
def build_table_fill_rw_ops (step : ExecStep) (_table_idx : Nat) :
    Except GadgetError ExecStep :=
  if step.arg_dst + step.arg_len ≤ step.table_size then
    .ok (step.pushRows step.arg_len (fun i c =>
      .Table c true step.call_id (step.arg_dst + i) step.arg_src))
  else
    .error .OutOfBoundsError

/-- Modelled from the spec: `build_table_copy_rw_ops`
(rw_builder/opcode.rs, not among the provided sources).  Spec section 4.4:
bounds-checks source and destination ranges against the declared current
size, then one write row per element in ascending destination order, values
taken from the pre-step table snapshot. -/
def build_table_copy_rw_ops (step : ExecStep) (_dst_tid : Nat) :
    Except GadgetError ExecStep :=
  if step.arg_dst + step.arg_len ≤ step.table_size ∧
      step.arg_src + step.arg_len ≤ step.table_size then
    .ok (step.pushRows step.arg_len (fun i c =>
      .Table c true step.call_id (step.arg_dst + i) (step.table (step.arg_src + i))))
  else
    .error .OutOfBoundsError

/-- Modelled from the spec: `build_table_grow_rw_ops`
(rw_builder/opcode.rs, not among the provided sources).  Spec sections 4.4
and 8: growing by delta beyond the table's declared maximum fails with a
bounds error and emits no data rows; otherwise one write row per newly
created element, ascending, carrying the init value. -/
def build_table_grow_rw_ops (step : ExecStep) (_table_idx : Nat) :
    Except GadgetError ExecStep :=
  if step.table_size + step.arg_len ≤ step.table_max then
    .ok (step.pushRows step.arg_len (fun i c =>
      .Table c true step.call_id (step.table_size + i) step.arg_src))
  else
    .error .OutOfBoundsError

/-- Modelled from the spec: `build_table_get_rw_ops`
(rw_builder/opcode.rs, not among the provided sources).  Spec section 4.4:
bounds-checks the accessed index against the declared current size, then
emits the single element read row. -/
def build_table_get_rw_ops (step : ExecStep) (_table_idx : Nat) :
    Except GadgetError ExecStep :=
  if step.arg_src < step.table_size then
    .ok (step.pushRow (fun c =>
      .Table c false step.call_id step.arg_src (step.table step.arg_src)))
  else
    .error .OutOfBoundsError

/-- Modelled from the spec: the shared emission discipline of the host and
wasi syscall generators (rw_builder/{platform,wasi}.rs, not among the
provided sources).  Spec section 4.5: read the caller-resolved argument
region, emitting one memory read row per byte, then emit the row capturing
the syscall's logical input/output fact. -/
def buildSyscallRwOps (step : ExecStep) : ExecStep :=
  (step.pushRows step.io_len (fun i c =>
    .Memory c false step.call_id (step.io_offset + i) (step.memory (step.io_offset + i)))
  ).pushRow (fun c => .SyscallFact c step.call_id step.io_len)

/-- Modelled from the spec: `build_sys_halt_rw_ops` (rw_builder/platform.rs,
not among the provided sources); spec section 4.5 discipline. -/
def build_sys_halt_rw_ops (step : ExecStep) : Except GadgetError ExecStep :=
  .ok (buildSyscallRwOps step)

/-- Modelled from the spec: `build_sys_write_rw_ops`
(rw_builder/platform.rs, not among the provided sources); spec section 4.5
discipline. -/
def build_sys_write_rw_ops (step : ExecStep) : Except GadgetError ExecStep :=
  .ok (buildSyscallRwOps step)

/-- Modelled from the spec: `build_sys_read_rw_ops`
(rw_builder/platform.rs, not among the provided sources); spec section 4.5
discipline. -/
def build_sys_read_rw_ops (step : ExecStep) : Except GadgetError ExecStep :=
  .ok (buildSyscallRwOps step)

/-- Modelled from the spec: `build_wasi_proc_exit_rw_ops`
(rw_builder/wasi.rs, not among the provided sources); spec section 4.5
discipline. -/
def build_wasi_proc_exit_rw_ops (step : ExecStep) : Except GadgetError ExecStep :=
  .ok (buildSyscallRwOps step)

/-- Modelled from the spec: `build_wasi_fd_write_rw_ops`
(rw_builder/wasi.rs, not among the provided sources); spec section 4.5
discipline. -/
def build_wasi_fd_write_rw_ops (step : ExecStep) : Except GadgetError ExecStep :=
  .ok (buildSyscallRwOps step)

/-- Modelled from the spec: `build_wasi_environ_sizes_get_rw_ops`
(rw_builder/wasi.rs, not among the provided sources); spec section 4.5
discipline. -/
def build_wasi_environ_sizes_get_rw_ops (step : ExecStep) :
    Except GadgetError ExecStep :=
  .ok (buildSyscallRwOps step)

/-- Modelled from the spec: `build_wasi_environ_get_rw_ops`
(rw_builder/wasi.rs, not among the provided sources); spec section 4.5
discipline. -/
def build_wasi_environ_get_rw_ops (step : ExecStep) :
    Except GadgetError ExecStep :=
  .ok (buildSyscallRwOps step)

/-- Modelled from the spec: `build_wasi_args_sizes_get_rw_ops`
(rw_builder/wasi.rs, not among the provided sources); spec section 4.5
discipline. -/
def build_wasi_args_sizes_get_rw_ops (step : ExecStep) :
    Except GadgetError ExecStep :=
  .ok (buildSyscallRwOps step)

/-- Modelled from the spec: `build_wasi_args_get_rw_ops`
(rw_builder/wasi.rs, not among the provided sources); spec section 4.5
discipline. -/
def build_wasi_args_get_rw_ops (step : ExecStep) : Except GadgetError ExecStep :=
  .ok (buildSyscallRwOps step)

/-- Modelled from the spec: `build_rwasm_transact_rw_ops`
(rw_builder/rwasm.rs, not among the provided sources).  Spec section 4.6:
marshals the call's argument region like the other syscall generators and,
when the synchronous child run fails, fails fatally with the
transact-specific error instead of folding anything into the parent. -/
def build_rwasm_transact_rw_ops (step : ExecStep) : Except GadgetError ExecStep :=
  if step.child_ok then
    .ok (buildSyscallRwOps step)
  else
    .error .Transact

/-- Modelled from the spec: `build_generic_rw_ops` (rw_builder/opcode.rs,
not among the provided sources).  Spec section 4.3: a single data-driven
routine emitting one row per entry of the instruction's statically declared
operand shape, in declared order; pops and local gets are reads, pushes and
local sets are writes (the concrete addresses and values come from engine
state the spec does not fix and no claim proved below depends on). -/
def build_generic_rw_ops (step : ExecStep) (rw_ops : List RwOp) :
    Except GadgetError ExecStep :=
  .ok (step.pushRows rw_ops.length (fun i c =>
    match rw_ops.getD i .StackPop with
    | .StackPop => .Stack c false step.call_id 0 0
    | .StackPush => .Stack c true step.call_id 0 0
    | .LocalGet depth => .Stack c false step.call_id depth 0
    | .LocalSet depth => .Stack c true step.call_id depth 0))

/-- Embedding of `build_platform_rw_ops` (src/circuits/src/rw_builder.rs,
lines 104-122): dispatch on the resolved syscall id to the matching
generator; any other id is the fatal `UnknownSysCall` carrying that id. -/
def build_platform_rw_ops (step : ExecStep) (sys_func : SysFuncIdx) :
    Except GadgetError ExecStep :=
  match sys_func with
  | .RWASM_TRANSACT => build_rwasm_transact_rw_ops step
  | .SYS_HALT => build_sys_halt_rw_ops step
  | .SYS_WRITE => build_sys_write_rw_ops step
  | .SYS_READ => build_sys_read_rw_ops step
  | .WASI_PROC_EXIT => build_wasi_proc_exit_rw_ops step
  | .WASI_FD_WRITE => build_wasi_fd_write_rw_ops step
  | .WASI_ENVIRON_SIZES_GET => build_wasi_environ_sizes_get_rw_ops step
  | .WASI_ENVIRON_GET => build_wasi_environ_get_rw_ops step
  | .WASI_ARGS_SIZES_GET => build_wasi_args_sizes_get_rw_ops step
  | .WASI_ARGS_GET => build_wasi_args_get_rw_ops step
  | .other id => .error (.UnknownSysCall (.other id))

/-- Embedding of `build_return_rw_ops` (src/circuits/src/rw_builder.rs,
lines 124-136).  The body's non-root branch (`if step.call_id > 0`) is
entirely commented out in the source — the CallDepth context row emission
and the `next_call_id` update are disabled — so the active behavior appends
nothing and succeeds for every call id. -/
def build_return_rw_ops (step : ExecStep) : Except GadgetError ExecStep :=
  .ok step

namespace RwBuilder

/-- Embedding of `RwBuilder::build` (src/circuits/src/rw_builder.rs, lines
45-101): first push the ProgramCounter context row (write, owning call id,
value = the step's pc delta; the MemorySize and StackPointer pushes are
commented out in the source), then branch on the instruction kind to the
matching generator, defaulting to the shape-driven generic generator. -/
def build (step : ExecStep) : Except GadgetError ExecStep :=
  let step := step.pushRow (fun c =>
    .Context c true step.call_id .ProgramCounter step.pc_diff)
  match step.instr with
  | .Call fn_idx => build_platform_rw_ops step (SysFuncIdx.fromNat fn_idx)
  | .Return _ => build_return_rw_ops step
  | .ConsumeFuel _ => build_consume_fuel_rw_ops step
  | .MemoryCopy => build_memory_copy_rw_ops step
  | .MemoryFill => build_memory_fill_rw_ops step
  | .TableFill table_idx => build_table_fill_rw_ops step table_idx
  | .TableCopy dst_tid => build_table_copy_rw_ops step dst_tid
  | .TableGrow table_idx => build_table_grow_rw_ops step table_idx
  | .TableGet table_idx => build_table_get_rw_ops step table_idx
  | .Other rw_ops => build_generic_rw_ops step rw_ops

end RwBuilder

/-- The known syscall id set named by the dispatcher claim: exactly the ten
ids `build_platform_rw_ops` dispatches to a generator. -/
def knownSysCall : SysFuncIdx → Bool
  | .RWASM_TRANSACT => true
  | .SYS_HALT => true
  | .SYS_WRITE => true
  | .SYS_READ => true
  | .WASI_PROC_EXIT => true
  | .WASI_FD_WRITE => true
  | .WASI_ENVIRON_SIZES_GET => true
  | .WASI_ENVIRON_GET => true
  | .WASI_ARGS_SIZES_GET => true
  | .WASI_ARGS_GET => true
  | .other _ => false

/-- Recognizes a Context row with the CallDepth tag. -/
def isCallDepthRow : RwRow → Bool
  | .Context _ _ _ .CallDepth _ => true
  | _ => false

/-- Concrete execution step (nested frame, empty row log) used by the closed
example theorems, parameterized by the instruction. -/
def step0 (i : Instruction) : ExecStep :=
  { instr := i
    call_id := 3
    rw_counter := 40
    pc_delta := 7
    rw_rows := []
    memory := fun a => a % 256
    table := fun a => a + 100
    table_size := 10
    table_max := 20
    fuel_remaining := 50
    arg_dst := 5
    arg_src := 2
    arg_len := 3
    io_offset := 11
    io_len := 2
    child_ok := true }

/-- The step `step0` for a Return instruction after the dispatcher has run:
only the ProgramCounter context row was appended. -/
def step0ReturnResult : ExecStep :=
  { step0 (Instruction.Return 0) with
    rw_counter := 41
    rw_rows := [RwRow.Context 40 true 3 RwTableContextTag.ProgramCounter 7] }

/-- Concrete account whose nonce sits at `u64::MAX`; this state is reachable
through `inc_nonce` itself, whose error branch stores `u64::MAX` while
reporting `NonceOverflow`. -/
def accMaxNonce : Account :=
  { Account.new 0 with nonce := 2 ^ 64 - 1 }

/-- Concrete account with all six encoded fields nontrivial, used by the
round-trip example. -/
def accSample : Account :=
  { address := 1
    balance := 3
    nonce := 4
    source_code_size := 5
    source_code_hash := List.replicate 32 7
    rwasm_code_size := 6
    rwasm_code_hash := List.replicate 32 8 }

/-- Concrete sender for the transfer example. -/
def accSender : Account := { Account.new 0 with balance := 5 }

/-- Concrete recipient for the transfer example, one below the U256
maximum so that any credit of 2 or more overflows. -/
def accRecipient : Account := { Account.new 1 with balance := 2 ^ 256 - 1 }

/-!
Theorems.  General lemmas first, then one theorem per claim (with its
witness or counterexample where required).
-/

theorem leBytes_length (n : Nat) : ∀ v, (leBytes n v).length = n := by
  induction n with
  | zero => intro v; rfl
  | succ n ih => intro v; simp [leBytes, ih]

theorem ofLEBytes_leBytes (n : Nat) : ∀ v, ofLEBytes (leBytes n v) = v % 256 ^ n := by
  induction n with
  | zero => intro v; simp [leBytes, ofLEBytes, Nat.mod_one]
  | succ n ih =>
    intro v
    have h256 : (0:Nat) < 256 := by norm_num
    calc ofLEBytes (leBytes (n + 1) v)
        = v % 256 + 256 * ofLEBytes (leBytes n (v / 256)) := by
          simp [leBytes, ofLEBytes]
      _ = v % 256 + 256 * (v / 256 % 256 ^ n) := by rw [ih]
      _ = v % (256 * 256 ^ n) := (Nat.mod_mul).symm
      _ = v % 256 ^ (n + 1) := by rw [pow_succ, Nat.mul_comm]

theorem copy_from_slice_of_length (dst src : List Nat)
    (h : src.length = dst.length) : copy_from_slice dst src = src := by
  simp [copy_from_slice, h]

theorem take_append_of_length (l1 l2 : List Nat) (n : Nat)
    (h : l1.length = n) : (l1 ++ l2).take n = l1 := by
  subst h
  exact List.take_left l1 l2

theorem read_u64_write_u64_field (v : Nat) :
    read_u64 (write_u64_field v) = v % 2 ^ 64 := by
  unfold read_u64 write_u64_field
  rw [take_append_of_length _ _ _ (leBytes_length 8 v), ofLEBytes_leBytes]
  norm_num

/-- C2 counterexample: a child run that completes with the generic failure
exit code makes `fn_impl` fail with that child code, not with
`TransactError`, refuting the claim as stated at this input (the untouched
parent context part does hold). -/
theorem claim_C2_counterexample :
    SysExecHash.fn_impl ctx0 (some resPanic) 0 100 =
      (ctx0, Except.error ExitCode.Panic) ∧
    ExitCode.Panic ≠ ExitCode.TransactError :=
  ⟨rfl, by decide⟩

/-- C2 (amended): when the child run completes with a non-success exit code
(and its output does not trip the earlier output-size check), `fn_impl`
fails with an error equal to the child's own exit code — `TransactError` is
produced only when the child run itself fails to complete — and the parent
context's consumed fuel and return data are returned exactly as they were. -/
theorem claim_C2_amended (ctx : RuntimeContext) (res : ExecutionResult)
    (return_len fuel_limit : Nat)
    (hExit : res.data.exit_code ≠ ExitCode.Ok.into_i32)
    (hFit : ¬(return_len > 0 ∧ res.data.output.length > return_len)) :
    SysExecHash.fn_impl ctx (some res) return_len fuel_limit =
      (ctx, Except.error (ExitCode.fromInt res.data.exit_code)) := by
  simp [SysExecHash.fn_impl, hFit, hExit]

/-- C2 witness: the amended theorem applied at the concrete panicking
child. -/
theorem claim_C2_witness :
    SysExecHash.fn_impl ctx0 (some resPanic) 0 100 =
      (ctx0, Except.error (ExitCode.fromInt resPanic.data.exit_code)) :=
  claim_C2_amended ctx0 resPanic 0 100 (by decide) (by decide)

/-- C5 counterexample: with a declared maximum return size of 0 and a
successful child whose output has length 3 (which exceeds 0), `fn_impl`
does not fail with `OutputOverflow`; it succeeds and folds the child fuel
and output into the parent, refuting the claim as stated at this input. -/
theorem claim_C5_counterexample :
    SysExecHash.fn_impl ctx0 (some resOk3) 0 100 =
      ({ consumed_fuel := 22, return_data := [1, 2, 3] },
       Except.ok ([1, 2, 3], 95)) ∧
    resOk3.data.output.length > 0 ∧
    ({ consumed_fuel := 22, return_data := [1, 2, 3] } : RuntimeContext) ≠ ctx0 :=
  ⟨rfl, by decide, by decide⟩

/-- C5 (amended): when the caller declares a positive maximum return size
and the child output length exceeds it, `fn_impl` fails with
`OutputOverflow` and folds no fuel or output into the parent context. -/
theorem claim_C5_amended (ctx : RuntimeContext) (res : ExecutionResult)
    (return_len fuel_limit : Nat) (hPos : 0 < return_len)
    (hOver : res.data.output.length > return_len) :
    SysExecHash.fn_impl ctx (some res) return_len fuel_limit =
      (ctx, Except.error ExitCode.OutputOverflow) := by
  simp [SysExecHash.fn_impl, hPos, hOver]

/-- C5 witness: the amended theorem applied at a concrete overflowing
child output. -/
theorem claim_C5_witness :
    SysExecHash.fn_impl ctx0 (some resOk3) 2 100 =
      (ctx0, Except.error ExitCode.OutputOverflow) :=
  claim_C5_amended ctx0 resOk3 2 100 (by decide) (by decide)

theorem fromInt_eq_outputOverflow (c : Int)
    (h : ExitCode.fromInt c = ExitCode.OutputOverflow) : c = -76 := by
  unfold ExitCode.fromInt at h
  split at h <;> simp_all

/-- C9 counterexample: with a declared maximum return size of 0,
`OutputOverflow` can still be returned from the call — when it is the
child's own reported exit code — refuting the claim's never clause as
stated. -/
theorem claim_C9_counterexample :
    SysExecHash.fn_impl ctx0 (some resChildOO) 0 100 =
      (ctx0, Except.error ExitCode.OutputOverflow) := rfl

/-- C9 (amended): with a declared maximum return size of 0 the output
length is never checked — the length check can never produce
`OutputOverflow` (one can only arise as the child's own propagated exit
code) — and on child success the entire output, however long, is folded
into the parent context's return data. -/
theorem claim_C9_amended (ctx : RuntimeContext) (res : ExecutionResult)
    (fuel_limit : Nat) :
    (res.data.exit_code ≠ ExitCode.OutputOverflow.into_i32 →
      (SysExecHash.fn_impl ctx (some res) 0 fuel_limit).2 ≠
        Except.error ExitCode.OutputOverflow) ∧
    (res.data.exit_code = ExitCode.Ok.into_i32 →
      SysExecHash.fn_impl ctx (some res) 0 fuel_limit =
        ({ consumed_fuel :=
             (ctx.consumed_fuel + res.fuel_consumed.getD 0 % 2 ^ 32) % 2 ^ 32,
           return_data := res.data.output },
         Except.ok (res.data.output,
           (fuel_limit % 2 ^ 32 + 2 ^ 32 - res.fuel_consumed.getD 0 % 2 ^ 32) % 2 ^ 32))) := by
  constructor
  · intro hOO
    by_cases hz : res.data.exit_code = ExitCode.Ok.into_i32
    · simp [SysExecHash.fn_impl, hz]
    · simp only [SysExecHash.fn_impl, ExitCode.into_i32] at hz hOO ⊢
      simp only [gt_iff_lt, Nat.lt_irrefl, false_and, if_false, hz, ne_eq,
        not_false_eq_true, if_true, ite_true, ite_false]
      intro hcontra
      have : ExitCode.fromInt res.data.exit_code = ExitCode.OutputOverflow := by
        simpa using hcontra
      exact hOO (fromInt_eq_outputOverflow _ this)
  · intro hz
    simp [SysExecHash.fn_impl, hz]

/-- C9 witness: the amended theorem applied at the concrete panicking child
(no OutputOverflow) and at the concrete successful child (full output
folded). -/
theorem claim_C9_witness :
    ((SysExecHash.fn_impl ctx0 (some resPanic) 0 100).2 ≠
       Except.error ExitCode.OutputOverflow) ∧
    SysExecHash.fn_impl ctx0 (some resOk3) 0 100 =
      ({ consumed_fuel :=
           (ctx0.consumed_fuel + resOk3.fuel_consumed.getD 0 % 2 ^ 32) % 2 ^ 32,
         return_data := resOk3.data.output },
       Except.ok (resOk3.data.output,
         (100 % 2 ^ 32 + 2 ^ 32 - resOk3.fuel_consumed.getD 0 % 2 ^ 32) % 2 ^ 32)) :=
  ⟨(claim_C9_amended ctx0 resPanic 100).1 (by decide),
   (claim_C9_amended ctx0 resOk3 100).2 (by decide)⟩

/-- C3: evaluation of `inc_nonce` at the failing input.  At nonce =
`u64::MAX` the increment wraps the nonce to 0 and the post-increment check
against `u64::MAX` does not fire, so the operation reports success carrying
the previous nonce — a silent wrap-around, contradicting the spec's policy
that balance/nonce arithmetic is checked and reported, never silently
wrapped. -/
theorem claim_C3_failing :
    Account.inc_nonce accMaxNonce =
      ({ accMaxNonce with nonce := 0 }, Except.ok (2 ^ 64 - 1)) := rfl

/-- C10: `transfer` debits the sender first; when the debit succeeds and the
credit overflows U256, it returns `OverflowPayment` with the sender already
reduced by the amount and the recipient unchanged — the transfer is not
atomic on this error. -/
theorem claim_C10 (fromAcc toAcc : Account) (amount : Nat)
    (hsub : amount ≤ fromAcc.balance)
    (hover : 2 ^ 256 ≤ toAcc.balance + amount) :
    Account.transfer fromAcc toAcc amount =
      ({ fromAcc with balance := fromAcc.balance - amount }, toAcc,
       Except.error ExitCode.OverflowPayment) := by
  have h1 : Account.sub_balance fromAcc amount =
      ({ fromAcc with balance := fromAcc.balance - amount }, Except.ok ()) := by
    unfold Account.sub_balance
    rw [if_pos hsub]
  have h2 : Account.add_balance toAcc amount =
      (toAcc, Except.error ExitCode.OverflowPayment) := by
    unfold Account.add_balance
    rw [if_neg (Nat.not_lt.mpr hover)]
  simp only [Account.transfer, h1, h2]

/-- C10 witness: the theorem applied at a concrete sender with balance 5, a
recipient at the U256 maximum, and amount 3. -/
theorem claim_C10_witness :
    Account.transfer accSender accRecipient 3 =
      ({ accSender with balance := accSender.balance - 3 }, accRecipient,
       Except.error ExitCode.OverflowPayment) :=
  claim_C10 accSender accRecipient 3 (by decide) (by decide)

/-- C4: the six-field round-trip law.  For every account whose numeric
fields respect their Rust types' bounds (balance a U256, nonce and code
sizes u64, hashes 32 bytes), decoding `get_fields` output with
`new_from_fields` reproduces all six field values exactly (the address is
the one supplied to the decoder). -/
theorem claim_C4 (addr : Nat) (a : Account)
    (hb : a.balance < 2 ^ 256) (hn : a.nonce < 2 ^ 64)
    (hs : a.source_code_size < 2 ^ 64) (hr : a.rwasm_code_size < 2 ^ 64)
    (hsh : a.source_code_hash.length = 32) (hrh : a.rwasm_code_hash.length = 32) :
    Account.new_from_fields addr (Account.get_fields a) =
      some { Account.new addr with
        balance := a.balance
        nonce := a.nonce
        source_code_size := a.source_code_size
        source_code_hash := a.source_code_hash
        rwasm_code_size := a.rwasm_code_size
        rwasm_code_hash := a.rwasm_code_hash } := by
  have hb32 : (leBytes 32 a.balance).length = 32 := leBytes_length 32 a.balance
  have hz32 : (leBytes 32 (0:Nat)).length = 32 := leBytes_length 32 0
  have h0 : (List.replicate 32 (0:Nat)).length = 32 := by simp
  have hK : KECCAK_EMPTY.length = 32 := by simp [KECCAK_EMPTY]
  have hP : POSEIDON_EMPTY.length = 32 := by simp [POSEIDON_EMPTY]
  have h6 : (Account.get_fields a).length = 6 := rfl
  have g0 : (Account.get_fields a).getD 0 [] = leBytes 32 a.balance := by
    show copy_from_slice (List.replicate 32 0) (leBytes 32 a.balance) = _
    exact copy_from_slice_of_length _ _ (hb32.trans h0.symm)
  have g1 : (Account.get_fields a).getD 1 [] = write_u64_field a.nonce := rfl
  have g2 : (Account.get_fields a).getD 2 [] =
      write_u64_field a.source_code_size := rfl
  have g3 : (Account.get_fields a).getD 3 [] = a.source_code_hash := by
    show copy_from_slice (List.replicate 32 0) a.source_code_hash = _
    exact copy_from_slice_of_length _ _ (hsh.trans h0.symm)
  have g4 : (Account.get_fields a).getD 4 [] =
      write_u64_field a.rwasm_code_size := rfl
  have g5 : (Account.get_fields a).getD 5 [] = a.rwasm_code_hash := by
    show copy_from_slice (List.replicate 32 0) a.rwasm_code_hash = _
    exact copy_from_slice_of_length _ _ (hrh.trans h0.symm)
  unfold Account.new_from_fields
  rw [if_pos h6]
  simp only [Account.new, Option.some.injEq, g0, g1, g2, g3, g4, g5]
  rw [copy_from_slice_of_length _ _ (hb32.trans hz32.symm), ofLEBytes_leBytes,
    copy_from_slice_of_length _ _ (hsh.trans hK.symm),
    copy_from_slice_of_length _ _ (hrh.trans hP.symm),
    read_u64_write_u64_field, read_u64_write_u64_field,
    read_u64_write_u64_field]
  have e256 : (256:Nat) ^ 32 = 2 ^ 256 := by norm_num
  rw [e256, Nat.mod_eq_of_lt hb, Nat.mod_eq_of_lt hn, Nat.mod_eq_of_lt hs,
    Nat.mod_eq_of_lt hr]

theorem syscall_append_only (s : ExecStep) :
    ∃ extra, (buildSyscallRwOps s).rw_rows = s.rw_rows ++ extra := by
  unfold buildSyscallRwOps ExecStep.pushRow ExecStep.pushRows
  exact ⟨_, by rw [List.append_assoc]⟩

theorem platform_append_only (s r : ExecStep) (f : SysFuncIdx)
    (h : build_platform_rw_ops s f = Except.ok r) :
    ∃ extra, r.rw_rows = s.rw_rows ++ extra := by
  cases f <;>
    simp only [build_platform_rw_ops, build_sys_halt_rw_ops,
      build_sys_write_rw_ops, build_sys_read_rw_ops,
      build_wasi_proc_exit_rw_ops, build_wasi_fd_write_rw_ops,
      build_wasi_environ_sizes_get_rw_ops, build_wasi_environ_get_rw_ops,
      build_wasi_args_sizes_get_rw_ops, build_wasi_args_get_rw_ops,
      build_rwasm_transact_rw_ops] at h
  case RWASM_TRANSACT =>
    split at h
    · cases Except.ok.inj h
      exact syscall_append_only s
    · exact absurd h (by simp)
  case other n => exact absurd h (by simp)
  all_goals
    cases Except.ok.inj h
    exact syscall_append_only s

theorem dispatch_append_only (s r : ExecStep)
    (h : (match s.instr with
          | Instruction.Call fn_idx =>
              build_platform_rw_ops s (SysFuncIdx.fromNat fn_idx)
          | Instruction.Return _ => build_return_rw_ops s
          | Instruction.ConsumeFuel _ => build_consume_fuel_rw_ops s
          | Instruction.MemoryCopy => build_memory_copy_rw_ops s
          | Instruction.MemoryFill => build_memory_fill_rw_ops s
          | Instruction.TableFill table_idx => build_table_fill_rw_ops s table_idx
          | Instruction.TableCopy dst_tid => build_table_copy_rw_ops s dst_tid
          | Instruction.TableGrow table_idx => build_table_grow_rw_ops s table_idx
          | Instruction.TableGet table_idx => build_table_get_rw_ops s table_idx
          | Instruction.Other rw_ops => build_generic_rw_ops s rw_ops) =
        Except.ok r) :
    ∃ extra, r.rw_rows = s.rw_rows ++ extra := by
  cases hI : s.instr <;> simp only [hI] at h
  case Call fn_idx => exact platform_append_only s r _ h
  case Return dk =>
    unfold build_return_rw_ops at h
    cases Except.ok.inj h
    exact ⟨[], (List.append_nil _).symm⟩
  case ConsumeFuel bf =>
    unfold build_consume_fuel_rw_ops at h
    simp only [hI] at h
    split at h
    · exact absurd h (by simp)
    · cases Except.ok.inj h
      exact ⟨_, rfl⟩
  case MemoryCopy =>
    unfold build_memory_copy_rw_ops at h
    cases Except.ok.inj h
    exact ⟨_, rfl⟩
  case MemoryFill =>
    unfold build_memory_fill_rw_ops at h
    cases Except.ok.inj h
    exact ⟨_, rfl⟩
  case TableFill t =>
    unfold build_table_fill_rw_ops at h
    split at h
    · cases Except.ok.inj h
      exact ⟨_, rfl⟩
    · exact absurd h (by simp)
  case TableCopy t =>
    unfold build_table_copy_rw_ops at h
    split at h
    · cases Except.ok.inj h
      exact ⟨_, rfl⟩
    · exact absurd h (by simp)
  case TableGrow t =>
    unfold build_table_grow_rw_ops at h
    split at h
    · cases Except.ok.inj h
      exact ⟨_, rfl⟩
    · exact absurd h (by simp)
  case TableGet t =>
    unfold build_table_get_rw_ops at h
    split at h
    · cases Except.ok.inj h
      exact ⟨_, rfl⟩
    · exact absurd h (by simp)
  case Other ops =>
    unfold build_generic_rw_ops at h
    cases Except.ok.inj h
    exact ⟨_, rfl⟩

/-- C1: for every execution step, whatever the instruction kind, whenever
the dispatcher's build succeeds the first row it appended to the step's row
log is the Context row with tag ProgramCounter, is_write = true, the step's
call id and the step's pc delta as value, appended before any other row of
the step. -/
theorem claim_C1 (step result : ExecStep)
    (h : RwBuilder.build step = Except.ok result) :
    ∃ rest, result.rw_rows = step.rw_rows ++
      RwRow.Context step.rw_counter true step.call_id
        RwTableContextTag.ProgramCounter step.pc_delta :: rest := by
  obtain ⟨extra, he⟩ :=
    dispatch_append_only
      (step.pushRow (fun c => RwRow.Context c true step.call_id
        RwTableContextTag.ProgramCounter step.pc_diff)) result h
  refine ⟨extra, ?_⟩
  rw [he]
  simp [ExecStep.pushRow, ExecStep.pc_diff]

/-- C1 witness: the theorem applied to the concrete Return step; the
dispatcher output has the ProgramCounter context row first. -/
theorem claim_C1_witness :
    ∃ rest, step0ReturnResult.rw_rows = (step0 (Instruction.Return 0)).rw_rows ++
      RwRow.Context (step0 (Instruction.Return 0)).rw_counter true
        (step0 (Instruction.Return 0)).call_id
        RwTableContextTag.ProgramCounter
        (step0 (Instruction.Return 0)).pc_delta :: rest :=
  claim_C1 (step0 (Instruction.Return 0)) step0ReturnResult rfl

/-- C6: a memory copy step of length L produces, after the leading
ProgramCounter context row, exactly L data rows, the i-th addressing
`dst_offset + i` (ascending destination order) and carrying the source
byte from the pre-step memory snapshot; with L = 0 the `List.range` map is
empty, so only the context row is emitted. -/
theorem claim_C6 (step : ExecStep) (h : step.instr = Instruction.MemoryCopy) :
    RwBuilder.build step = Except.ok { step with
      rw_counter := step.rw_counter + 1 + step.arg_len
      rw_rows := step.rw_rows ++
        RwRow.Context step.rw_counter true step.call_id
          RwTableContextTag.ProgramCounter step.pc_delta ::
        (List.range step.arg_len).map (fun i =>
          RwRow.Memory (step.rw_counter + 1 + i) true step.call_id
            (step.arg_dst + i) (step.memory (step.arg_src + i))) } := by
  unfold RwBuilder.build ExecStep.pushRow
  simp only [h]
  unfold build_memory_copy_rw_ops ExecStep.pushRows
  simp [ExecStep.pc_diff]

/-- C6 witness: the theorem evaluated at the concrete MemoryCopy step of
length 3. -/
theorem claim_C6_witness :
    RwBuilder.build (step0 Instruction.MemoryCopy) =
      Except.ok { step0 Instruction.MemoryCopy with
        rw_counter := (step0 Instruction.MemoryCopy).rw_counter + 1 +
          (step0 Instruction.MemoryCopy).arg_len
        rw_rows := (step0 Instruction.MemoryCopy).rw_rows ++
          RwRow.Context (step0 Instruction.MemoryCopy).rw_counter true
            (step0 Instruction.MemoryCopy).call_id
            RwTableContextTag.ProgramCounter
            (step0 Instruction.MemoryCopy).pc_delta ::
          (List.range (step0 Instruction.MemoryCopy).arg_len).map (fun i =>
            RwRow.Memory ((step0 Instruction.MemoryCopy).rw_counter + 1 + i)
              true (step0 Instruction.MemoryCopy).call_id
              ((step0 Instruction.MemoryCopy).arg_dst + i)
              ((step0 Instruction.MemoryCopy).memory
                ((step0 Instruction.MemoryCopy).arg_src + i))) } :=
  claim_C6 (step0 Instruction.MemoryCopy) rfl

/-- C7: `build_platform_rw_ops` fails with the fatal `UnknownSysCall`
carrying the offending id exactly on ids outside the known ten-element
syscall set, and on a known id it dispatches to (returns the result of) one
of the ten generators. -/
theorem claim_C7 (step : ExecStep) (f : SysFuncIdx) :
    (knownSysCall f = false →
      build_platform_rw_ops step f = Except.error (.UnknownSysCall f)) ∧
    (knownSysCall f = true →
      build_platform_rw_ops step f ∈
        [build_rwasm_transact_rw_ops step, build_sys_halt_rw_ops step,
         build_sys_write_rw_ops step, build_sys_read_rw_ops step,
         build_wasi_proc_exit_rw_ops step, build_wasi_fd_write_rw_ops step,
         build_wasi_environ_sizes_get_rw_ops step,
         build_wasi_environ_get_rw_ops step,
         build_wasi_args_sizes_get_rw_ops step,
         build_wasi_args_get_rw_ops step]) := by
  cases f <;> simp [knownSysCall, build_platform_rw_ops]

/-- C7 witness: an unknown id fails with `UnknownSysCall` carrying it, and
the known id SYS_HALT dispatches to a generator. -/
theorem claim_C7_witness :
    build_platform_rw_ops (step0 (Instruction.Call 999)) (.other 12345) =
      Except.error (.UnknownSysCall (.other 12345)) ∧
    build_platform_rw_ops (step0 (Instruction.Call 2)) .SYS_HALT ∈
      [build_rwasm_transact_rw_ops (step0 (Instruction.Call 2)),
       build_sys_halt_rw_ops (step0 (Instruction.Call 2)),
       build_sys_write_rw_ops (step0 (Instruction.Call 2)),
       build_sys_read_rw_ops (step0 (Instruction.Call 2)),
       build_wasi_proc_exit_rw_ops (step0 (Instruction.Call 2)),
       build_wasi_fd_write_rw_ops (step0 (Instruction.Call 2)),
       build_wasi_environ_sizes_get_rw_ops (step0 (Instruction.Call 2)),
       build_wasi_environ_get_rw_ops (step0 (Instruction.Call 2)),
       build_wasi_args_sizes_get_rw_ops (step0 (Instruction.Call 2)),
       build_wasi_args_get_rw_ops (step0 (Instruction.Call 2))] :=
  ⟨(claim_C7 (step0 (Instruction.Call 999)) (.other 12345)).1 rfl,
   (claim_C7 (step0 (Instruction.Call 2)) .SYS_HALT).2 rfl⟩

/-- C8: for every Return instruction, whatever the call id (root or
nested), the dispatcher succeeds appending only the leading ProgramCounter
context row, and in particular no CallDepth context row is emitted. -/
theorem claim_C8 (step : ExecStep) (dk : Nat)
    (h : step.instr = Instruction.Return dk) :
    RwBuilder.build step = Except.ok { step with
      rw_counter := step.rw_counter + 1
      rw_rows := step.rw_rows ++
        [RwRow.Context step.rw_counter true step.call_id
          RwTableContextTag.ProgramCounter step.pc_delta] } ∧
    ∀ result, RwBuilder.build step = Except.ok result →
      result.rw_rows.countP (fun r => isCallDepthRow r) =
        step.rw_rows.countP (fun r => isCallDepthRow r) := by
  have hbuild : RwBuilder.build step = Except.ok { step with
      rw_counter := step.rw_counter + 1
      rw_rows := step.rw_rows ++
        [RwRow.Context step.rw_counter true step.call_id
          RwTableContextTag.ProgramCounter step.pc_delta] } := by
    unfold RwBuilder.build ExecStep.pushRow
    simp only [h]
    unfold build_return_rw_ops
    rfl
  refine ⟨hbuild, ?_⟩
  intro result hres
  rw [hbuild] at hres
  cases Except.ok.inj hres
  simp [List.countP_append, isCallDepthRow]

/-- C8 witness: the theorem evaluated at the concrete nested-frame Return
step (call id 3 > 0). -/
theorem claim_C8_witness :
    RwBuilder.build (step0 (Instruction.Return 0)) =
      Except.ok { step0 (Instruction.Return 0) with
        rw_counter := (step0 (Instruction.Return 0)).rw_counter + 1
        rw_rows := (step0 (Instruction.Return 0)).rw_rows ++
          [RwRow.Context (step0 (Instruction.Return 0)).rw_counter true
            (step0 (Instruction.Return 0)).call_id
            RwTableContextTag.ProgramCounter
            (step0 (Instruction.Return 0)).pc_delta] } ∧
    ∀ result, RwBuilder.build (step0 (Instruction.Return 0)) =
        Except.ok result →
      result.rw_rows.countP (fun r => isCallDepthRow r) =
        (step0 (Instruction.Return 0)).rw_rows.countP
          (fun r => isCallDepthRow r) :=
  claim_C8 (step0 (Instruction.Return 0)) 0 rfl

/-- C4 witness: the round trip evaluated at the concrete sample account. -/
theorem claim_C4_witness :
    Account.new_from_fields 9 (Account.get_fields accSample) =
      some { Account.new 9 with
        balance := accSample.balance
        nonce := accSample.nonce
        source_code_size := accSample.source_code_size
        source_code_hash := accSample.source_code_hash
        rwasm_code_size := accSample.rwasm_code_size
        rwasm_code_hash := accSample.rwasm_code_hash } :=
  claim_C4 9 accSample (by decide) (by decide) (by decide) (by decide)
    (by decide) (by decide)
